import Mathlib

/-!
Verification of the asynchronous video-generation polling client
(`generateMemoryVideo` in `src/api/higgsfield.ts`) against its
natural-language specification.

The client is embedded shallowly:
* JSON response bodies are the inductive type `Json`; JavaScript truthiness,
  property access (`obj.field`, with `undefined` as `Option.none`) and
  string coercion (template-literal interpolation) are modelled explicitly.
* Network interaction is an oracle: the parsed body of the initial POST is an
  input, and the outcome of the i-th polling GET is `polls i` (either a parsed
  body or a request error carrying an optional HTTP status code).
* Wall-clock time advances by the fixed 5-second sleep at the top of each loop
  iteration plus an arbitrary per-request duration `reqTime i ≥ 0`; the
  elapsed-time guard is checked exactly where the source checks it.
* The `while` loop is written with an explicit fuel parameter; fuel
  `TIMEOUT_MS / POLLING_INTERVAL + 1` is provably sufficient (each iteration
  advances the clock by at least `POLLING_INTERVAL`), and `pollLoopF_fuel_stable`
  shows every sufficient fuel gives the same result, so the embedding agrees
  with the unbounded source loop.
Numbers in JSON are modelled as integers; none of the verified properties
involve non-integral numerics.
-/

/-- JSON values, as delivered by the HTTP client after parsing a response
body. (Objects are association lists; lookup takes the first binding.) -/
inductive Json where
  | null : Json
  | bool : Bool → Json
  | num : Int → Json
  | str : String → Json
  | arr : List Json → Json
  | obj : List (String × Json) → Json
deriving Repr

/-- JavaScript truthiness of a value. Any object or array is truthy; the
empty string, `0`, `false` and `null` are falsy. -/
def Json.truthy : Json → Bool
  | .null => false
  | .bool b => b
  | .num n => decide (n ≠ 0)
  | .str s => decide (s ≠ "")
  | .arr _ => true
  | .obj _ => true

/-- Is this value exactly the string `s`? (JavaScript `=== "s"` — strict
equality against a string literal.) -/
def Json.isStr (j : Json) (s : String) : Bool :=
  match j with
  | .str t => t == s
  | _ => false

/-- Is this value JSON `null`? -/
def Json.isNull : Json → Bool
  | .null => true
  | _ => false

/-- First binding of a key in an association list. -/
def lookupField : List (String × Json) → String → Option Json
  | [], _ => none
  | (k, v) :: rest, key => if k == key then some v else lookupField rest key

/-- JavaScript property access `j.key`: `none` models `undefined` (access on a
non-object, or a missing key). Access on `null` throws in JavaScript; callers
of this function in the model only reach it on non-null receivers, or behind
the optional-chaining operator, where `null` yields `undefined`. -/
def Json.getField (j : Json) (key : String) : Option Json :=
  match j with
  | .obj kvs => lookupField kvs key
  | _ => none

/-- Truthiness of a possibly-`undefined` value. -/
def optTruthy : Option Json → Bool
  | none => false
  | some j => j.truthy

/-- JavaScript `a || b` on possibly-`undefined` values: the first operand if
truthy, otherwise the second. -/
def jsOr (a b : Option Json) : Option Json :=
  if optTruthy a then a else b

mutual

/-- JavaScript `String(v)` coercion, as performed by template-literal
interpolation. -/
def jsToString : Json → String
  | .null => "null"
  | .bool b => if b then "true" else "false"
  | .num n => toString n
  | .str s => s
  | .arr l => jsToStringList l
  | .obj _ => "[object Object]"

/-- `Array.prototype.toString`: elements joined by commas, `null` elements
rendered as the empty string. -/
def jsToStringList : List Json → String
  | [] => ""
  | [x] => if x.isNull then "" else jsToString x
  | x :: rest =>
      (if x.isNull then "" else jsToString x) ++ "," ++ jsToStringList rest

end

/-- `isVideoReady` from the source: a response is "ready" when
`response.video?.url || response.output || response.url ||
(Array.isArray(response.output) && response.output.length > 0)` is truthy.
Note that the second disjunct is the raw truthiness of `output`: any array
under `output` — even an empty one — makes the response ready, so the final
disjunct is unreachable. -/
def isVideoReady (response : Json) : Bool :=
  optTruthy ((response.getField "video").bind (fun v => v.getField "url"))
  || optTruthy (response.getField "output")
  || optTruthy (response.getField "url")
  || (match response.getField "output" with
      | some (.arr l) => decide (0 < l.length)
      | _ => false)

/-- `data.status || "in_progress"` on a (non-null) poll body. -/
def extractStatus (body : Json) : Json :=
  match body.getField "status" with
  | some j => if j.truthy then j else .str "in_progress"
  | none => .str "in_progress"

/-- `data.status || "Queued"` on the initial response, the argument of the
second progress callback. -/
def initialStatusMsg (d : Json) : Json :=
  match d.getField "status" with
  | some j => if j.truthy then j else .str "Queued"
  | none => .str "Queued"

/-- The generation endpoint (`API_URL` in the source). -/
def API_URL : String := "https://platform.higgsfield.ai/higgsfield-ai/dop/lite"

/-- `TIMEOUT_MS = 2000000` — the 2000-second polling ceiling. -/
def TIMEOUT_MS : Nat := 2000000

/-- `POLLING_INTERVAL = 5000` — the fixed 5-second inter-poll sleep. -/
def POLLING_INTERVAL : Nat := 5000

/-- Message of the error thrown when the polling ceiling is reached. -/
def TIMEOUT_MSG : String :=
  "Timed out waiting for video generation (2000s limit reached)."

/-- Timeout passed to the initial POST (milliseconds). -/
def INITIAL_POST_TIMEOUT_MS : Nat := 30000

/-- The request payload built from the caller's image URL (all other fields
are fixed constants in the source). -/
def buildPayload (imageUrl : String) : Json :=
  .obj
    [ ("prompt", .str "recreate the uploaded image into a real-life motion like video"),
      ("image2video_model", .str "dop-lite"),
      ("seed", .num 36644),
      ("motions", .arr
        [ .obj
            [ ("id", .str "31177282-bde3-4870-b283-1135ca0a201a"),
              ("strength", .num 1) ] ]),
      ("image_url", .str imageUrl),
      ("input_images", .arr
        [ .obj
            [ ("type", .str "image_url"),
              ("image_url", .str imageUrl) ] ]),
      ("enhance_prompt", .bool true),
      ("check_nsfw", .bool true) ]

/-- The headers sent with the initial POST and with every polling GET. -/
def buildHeaders (apiKey apiSecret : String) : List (String × String) :=
  [ ("Content-Type", "application/json"),
    ("hf-api-key", apiKey),
    ("hf-secret", apiSecret) ]

/-- Outcome of one polling GET, as seen by the client: a parsed body on HTTP
success, or a request error carrying the HTTP status of the error response
when one exists (`none` models a network failure with no response). -/
inductive PollResult where
  | success (body : Json)
  | httpError (status : Option Nat)
deriving Repr

/-- `pollError.response && pollError.response.status >= 400 &&
pollError.response.status < 500 && pollError.response.status !== 429`:
the condition under which a poll error stops the loop and is re-raised. -/
def isNonRetryablePollError : Option Nat → Bool
  | none => false
  | some s => decide (400 ≤ s) && decide (s < 500) && decide (s ≠ 429)

/-- How one `generateMemoryVideo` call ends. -/
inductive Outcome where
  /-- The call returns `body` to the caller. -/
  | ok (body : Json)
  /-- A non-retryable poll error (4xx other than 429) is re-raised. -/
  | pollFailure (status : Option Nat)
  /-- The polling ceiling is reached and the timeout error is thrown. -/
  | timeoutErr (msg : String)
  /-- A TypeError from dereferencing a `null` initial body, rethrown by the
  outer catch. -/
  | jsTypeError
deriving Repr

/-- The polling `while` loop, fuel-indexed. State: `i` is the index of the
next GET to issue, `elapsed` the wall-clock milliseconds since `startTime`.
Each iteration first checks `elapsed < TIMEOUT_MS`, then sleeps
`POLLING_INTERVAL`, issues `polls i` (taking `reqTime i` further
milliseconds), and dispatches exactly as the source does. Returns the
outcome, the list of progress-callback arguments emitted by the loop in
order, and the index after the last GET issued (= the number of GETs when
started at `i = 0`). The fuel-exhausted result equals the guard-failed
result, and `pollLoopF_fuel_stable` below shows any fuel of at least
`TIMEOUT_MS / POLLING_INTERVAL + 1` is never exhausted from `elapsed = 0`. -/
def pollLoopF (polls : Nat → PollResult) (reqTime : Nat → Nat) :
    Nat → Nat → Nat → Outcome × List Json × Nat
  | 0, i, _ => (.timeoutErr TIMEOUT_MSG, [], i)
  | fuel + 1, i, elapsed =>
    if elapsed < TIMEOUT_MS then
      match polls i with
      | .httpError st =>
          if isNonRetryablePollError st then
            (.pollFailure st, [], i + 1)
          else
            pollLoopF polls reqTime fuel (i + 1) (elapsed + POLLING_INTERVAL + reqTime i)
      | .success body =>
          if body.isNull then
            pollLoopF polls reqTime fuel (i + 1) (elapsed + POLLING_INTERVAL + reqTime i)
          else
            let currentStatus := extractStatus body
            if currentStatus.isStr "completed" || currentStatus.isStr "success"
                || isVideoReady body then
              (.ok body, [currentStatus], i + 1)
            else if currentStatus.isStr "failed" || currentStatus.isStr "nsfw" then
              let r := pollLoopF polls reqTime fuel (i + 1) (elapsed + POLLING_INTERVAL + reqTime i)
              (r.1, currentStatus :: r.2.1, r.2.2)
            else
              let r := pollLoopF polls reqTime fuel (i + 1) (elapsed + POLLING_INTERVAL + reqTime i)
              (r.1, currentStatus :: r.2.1, r.2.2)
    else (.timeoutErr TIMEOUT_MSG, [], i)

/-- Notes on `pollLoopF`, branch by branch, against the source:
* `httpError`: the catch block re-raises iff `isNonRetryablePollError`;
  otherwise it logs and continues (the elapsed budget is not reset). No
  progress callback fires on an error iteration.
* `success` with a `null` body: `data.status` on `null` throws a TypeError
  inside the try; the catch sees an error with no `response` field and
  continues. No progress callback fires.
* `success`, terminal status or ready body: the callback fires once with the
  extracted status, then the body is returned.
* `success`, status `failed` or `nsfw`: the source throws
  `new Error("Video generation failed: ...")` — but the throw is inside the
  try, the catch receives it, the Error has no `response` field, so the
  condition for re-raising is false and the loop continues. The failure is
  therefore swallowed, exactly like any in-progress status (the callback
  has already fired with the status).
* any other status: callback fires, loop continues. -/
def PMAX : Nat := TIMEOUT_MS / POLLING_INTERVAL + 1

/-- Derivation of the polling target from a not-ready initial body:
`requestId = data.request_id || data.id`, `statusUrl = data.status_url`,
then the source's two-branch fallback. `none` means the untrackable case
(the source returns the initial body as-is). The target is a `Json` value:
the source passes `data.status_url` to the GET verbatim, whatever its type. -/
def deriveStatusTarget (d : Json) : Option Json :=
  let requestId := jsOr (d.getField "request_id") (d.getField "id")
  let statusUrl := d.getField "status_url"
  if !optTruthy statusUrl && optTruthy requestId then
    some (.str ("https://platform.higgsfield.ai/requests/"
      ++ jsToString (requestId.getD .null) ++ "/status"))
  else if !optTruthy statusUrl && !optTruthy requestId then
    none
  else
    statusUrl

/-- Observable behaviour of one `generateMemoryVideo` call. -/
structure GenRun where
  /-- How the call ends. -/
  outcome : Outcome
  /-- Every argument passed to `onStatusUpdate`, in call order. -/
  updates : List Json
  /-- Number of polling GETs issued. -/
  pollCount : Nat
  /-- The URL polled, when the polling path is entered. -/
  pollTarget : Option Json
  /-- Body of the initial POST. -/
  payload : Json
  /-- Headers of the initial POST and of every polling GET. -/
  reqHeaders : List (String × String)
  /-- Timeout passed with the initial POST (milliseconds). -/
  postTimeoutMs : Nat
deriving Repr

/-- `generateMemoryVideo`, given the parsed body of a successful initial POST
(`initial`) and the poll oracle. (A failed initial POST is rethrown by the
outer catch before any of the modelled behaviour; the claims under
verification all concern calls whose submission succeeded.) -/
def generateMemoryVideo (imageUrl apiKey apiSecret : String)
    (initial : Json) (polls : Nat → PollResult) (reqTime : Nat → Nat) : GenRun :=
  let payload := buildPayload imageUrl
  let headers := buildHeaders apiKey apiSecret
  let initUpd := Json.str "Initializing..."
  if initial.isNull then
    ⟨.jsTypeError, [initUpd], 0, none, payload, headers, INITIAL_POST_TIMEOUT_MS⟩
  else if isVideoReady initial then
    ⟨.ok initial, [initUpd], 0, none, payload, headers, INITIAL_POST_TIMEOUT_MS⟩
  else
    match deriveStatusTarget initial with
    | none =>
        ⟨.ok initial, [initUpd], 0, none, payload, headers, INITIAL_POST_TIMEOUT_MS⟩
    | some target =>
        let r := pollLoopF polls reqTime PMAX 0 0
        ⟨r.1, initUpd :: initialStatusMsg initial :: r.2.1, r.2.2, some target,
          payload, headers, INITIAL_POST_TIMEOUT_MS⟩

/-- The spec's readiness notion, stated from its words for comparison with the
source's `isVideoReady`: "a resolvable video location under any of several
known response shapes (a nested video-object URL field, a top-level output
field holding a URL or the first element of a non-empty list of URLs, or a
top-level URL field)". -/
def specHasResolvableVideoUrl (r : Json) : Bool :=
  ((r.getField "video").bind (fun v => v.getField "url")).isSome
  || (match r.getField "output" with
      | some (.str _) => true
      | some (.arr (_ :: _)) => true
      | _ => false)
  || (r.getField "url").isSome

/-- The progress-callback invocation contributed by poll cycle `j`: the
extracted status for a successful non-null body, nothing otherwise. -/
def pollInvocationAt (polls : Nat → PollResult) (j : Nat) : Option Json :=
  match polls j with
  | .success b => if b.isNull then none else some (extractStatus b)
  | .httpError _ => none

/-- The progress-callback invocations contributed by the first `n` poll
cycles: one per successful non-null poll body, carrying its extracted status,
in poll order. -/
def pollInvocations (polls : Nat → PollResult) (n : Nat) : List Json :=
  (List.range n).filterMap (pollInvocationAt polls)

/-- A poll result that keeps the loop going: a retryable request error, or a
success body that reports no terminal status (`completed`, `success`,
`failed`, `nsfw`), does not satisfy the readiness check, and is not the
degenerate `null` body. -/
def nonTerminalPoll : PollResult → Bool
  | .httpError st => !isNonRetryablePollError st
  | .success b =>
      b.isNull
      || (!(extractStatus b).isStr "completed" && !(extractStatus b).isStr "success"
          && !(extractStatus b).isStr "failed" && !(extractStatus b).isStr "nsfw"
          && !isVideoReady b)

/-! ### Structural properties of the embedded poll loop -/

/-- The index after the last GET is at least the starting index. -/
theorem pollLoopF_next_ge (polls : Nat → PollResult) (reqTime : Nat → Nat) :
    ∀ fuel i elapsed, i ≤ (pollLoopF polls reqTime fuel i elapsed).2.2 := by
  intro fuel
  induction fuel with
  | zero => intro i e; exact Nat.le.refl
  | succ fuel ih =>
      intro i e
      simp only [pollLoopF]
      split
      · split
        · split
          · exact Nat.le_succ i
          · exact Nat.le_trans (Nat.le_succ i) (ih _ _)
        · split
          · exact Nat.le_trans (Nat.le_succ i) (ih _ _)
          · split
            · exact Nat.le_succ i
            · split
              · exact Nat.le_trans (Nat.le_succ i) (ih _ _)
              · exact Nat.le_trans (Nat.le_succ i) (ih _ _)
      · exact Nat.le.refl

/-- Once the elapsed clock has reached the ceiling, the loop exits at once
with the timeout error, for any fuel. -/
theorem pollLoopF_ceiling (polls : Nat → PollResult) (reqTime : Nat → Nat)
    (fuel i elapsed : Nat) (h : TIMEOUT_MS ≤ elapsed) :
    pollLoopF polls reqTime fuel i elapsed = (.timeoutErr TIMEOUT_MSG, [], i) := by
  cases fuel with
  | zero => rfl
  | succ f =>
      simp only [pollLoopF]
      rw [if_neg (by omega)]

/-- Fuel irrelevance: any two fuels large enough that the clock must reach
the ceiling first produce the same run, so the fuel-indexed embedding agrees
with the source's unbounded `while` loop. (`PMAX` and `elapsed = 0` satisfy
the bound: `2000000 ≤ 5000 * 401`.) -/
theorem pollLoopF_fuel_stable (polls : Nat → PollResult) (reqTime : Nat → Nat) :
    ∀ fuel fuel2 i elapsed,
      TIMEOUT_MS ≤ elapsed + POLLING_INTERVAL * fuel →
      TIMEOUT_MS ≤ elapsed + POLLING_INTERVAL * fuel2 →
      pollLoopF polls reqTime fuel i elapsed = pollLoopF polls reqTime fuel2 i elapsed := by
  intro fuel
  induction fuel with
  | zero =>
      intro fuel2 i e h1 h2
      have he : TIMEOUT_MS ≤ e := by
        simp only [TIMEOUT_MS, POLLING_INTERVAL] at h1 ⊢; omega
      rw [pollLoopF_ceiling polls reqTime 0 i e he,
        pollLoopF_ceiling polls reqTime fuel2 i e he]
  | succ f ih =>
      intro fuel2 i e h1 h2
      cases fuel2 with
      | zero =>
          have he : TIMEOUT_MS ≤ e := by
            simp only [TIMEOUT_MS, POLLING_INTERVAL] at h2 ⊢; omega
          rw [pollLoopF_ceiling polls reqTime (f + 1) i e he,
            pollLoopF_ceiling polls reqTime 0 i e he]
      | succ g =>
          have harith1 : TIMEOUT_MS ≤ e + POLLING_INTERVAL + reqTime i + POLLING_INTERVAL * f := by
            simp only [TIMEOUT_MS, POLLING_INTERVAL] at h1 ⊢; omega
          have harith2 : TIMEOUT_MS ≤ e + POLLING_INTERVAL + reqTime i + POLLING_INTERVAL * g := by
            simp only [TIMEOUT_MS, POLLING_INTERVAL] at h2 ⊢; omega
          simp only [pollLoopF]
          split
          · split
            · split
              · rfl
              · exact ih g _ _ harith1 harith2
            · split
              · exact ih g _ _ harith1 harith2
              · split
                · rfl
                · split
                  · rw [ih g _ _ harith1 harith2]
                  · rw [ih g _ _ harith1 harith2]
          · rfl

/-- If every poll result is non-terminal, the loop can only end by reaching
the ceiling: its outcome is the timeout error, whatever the fuel, the start
index, the starting clock and the request durations. -/
theorem pollLoopF_timeout (polls : Nat → PollResult) (reqTime : Nat → Nat)
    (hnt : ∀ j, nonTerminalPoll (polls j) = true) :
    ∀ fuel i elapsed,
      (pollLoopF polls reqTime fuel i elapsed).1 = .timeoutErr TIMEOUT_MSG := by
  intro fuel
  induction fuel with
  | zero => intro i e; rfl
  | succ f ih =>
      intro i e
      have h := hnt i
      simp only [pollLoopF]
      split
      · cases hp : polls i with
        | httpError st =>
            rw [hp] at h
            simp only [nonTerminalPoll, Bool.not_eq_true'] at h
            simp [h, ih]
        | success b =>
            rw [hp] at h
            simp only [nonTerminalPoll, Bool.or_eq_true, Bool.and_eq_true,
              Bool.not_eq_true'] at h
            rcases h with h | ⟨⟨⟨⟨h1, h2⟩, h3⟩, h4⟩, h5⟩
            · simp [h, ih]
            · cases hb : b.isNull with
              | true => simp [hb, ih]
              | false => simp [hb, h1, h2, h3, h4, h5, ih]
      · rfl

/-- With only non-terminal poll results and instantaneous requests, the
number of GETs issued is one per remaining full-or-partial polling interval
of budget, capped by the fuel. -/
theorem pollLoopF_count (polls : Nat → PollResult)
    (hnt : ∀ j, nonTerminalPoll (polls j) = true) :
    ∀ fuel i elapsed,
      (pollLoopF polls (fun _ => 0) fuel i elapsed).2.2
        = i + min fuel ((TIMEOUT_MS - elapsed + (POLLING_INTERVAL - 1)) / POLLING_INTERVAL) := by
  intro fuel
  induction fuel with
  | zero =>
      intro i e
      simp [pollLoopF]
  | succ f ih =>
      intro i e
      have h := hnt i
      simp only [pollLoopF]
      split
      · rename_i hg
        have key : i + 1 + min f ((TIMEOUT_MS - (e + POLLING_INTERVAL + 0) + (POLLING_INTERVAL - 1)) / POLLING_INTERVAL)
            = i + min (f + 1) ((TIMEOUT_MS - e + (POLLING_INTERVAL - 1)) / POLLING_INTERVAL) := by
          simp only [TIMEOUT_MS, POLLING_INTERVAL] at hg ⊢
          omega
        cases hp : polls i with
        | httpError st =>
            rw [hp] at h
            simp only [nonTerminalPoll, Bool.not_eq_true'] at h
            simp only [h, Bool.false_eq_true, if_false, ih]
            exact key
        | success b =>
            rw [hp] at h
            simp only [nonTerminalPoll, Bool.or_eq_true, Bool.and_eq_true,
              Bool.not_eq_true'] at h
            rcases h with h | ⟨⟨⟨⟨h1, h2⟩, h3⟩, h4⟩, h5⟩
            · simp only [h, if_true, ih]
              exact key
            · cases hb : b.isNull with
              | true =>
                  simp only [hb, if_true, ih]
                  exact key
              | false =>
                  simp only [hb, h1, h2, h3, h4, h5, Bool.false_eq_true, if_false,
                    Bool.or_self, ih]
                  exact key
      · rename_i hg
        have : (TIMEOUT_MS - e + (POLLING_INTERVAL - 1)) / POLLING_INTERVAL = 0 := by
          simp only [TIMEOUT_MS, POLLING_INTERVAL] at hg ⊢
          omega
        simp [this]

/-- Dropping a skipped index from the front of a `filterMap` over a
contiguous index range. -/
theorem filterMap_range_drop (g : Nat → Option Json) (i n : Nat)
    (hle : i + 1 ≤ n) (hg : g i = none) :
    (List.range' i (n - i)).filterMap g
      = (List.range' (i + 1) (n - (i + 1))).filterMap g := by
  have hn : n - i = (n - (i + 1)) + 1 := by omega
  rw [hn, List.range'_succ, List.filterMap_cons, hg]

/-- Peeling a kept index off the front of a `filterMap` over a contiguous
index range. -/
theorem filterMap_range_peel (g : Nat → Option Json) (i n : Nat) (x : Json)
    (hle : i + 1 ≤ n) (hg : g i = some x) :
    (List.range' i (n - i)).filterMap g
      = x :: (List.range' (i + 1) (n - (i + 1))).filterMap g := by
  have hn : n - i = (n - (i + 1)) + 1 := by omega
  rw [hn, List.range'_succ, List.filterMap_cons, hg]

/-- The progress updates emitted by the loop are exactly one per successful
non-null poll body among the polls it issued, each carrying that poll's
extracted status, in poll order — and none beyond the last issued poll. -/
theorem pollLoopF_updates (polls : Nat → PollResult) (reqTime : Nat → Nat) :
    ∀ fuel i elapsed,
      (pollLoopF polls reqTime fuel i elapsed).2.1
        = (List.range' i ((pollLoopF polls reqTime fuel i elapsed).2.2 - i)).filterMap
            (pollInvocationAt polls) := by
  intro fuel
  induction fuel with
  | zero => intro i e; simp [pollLoopF]
  | succ f ih =>
      intro i e
      simp only [pollLoopF]
      split
      · cases hp : polls i with
        | httpError st =>
            cases hnr : isNonRetryablePollError st with
            | true =>
                simp only [hnr, if_true]
                have : i + 1 - i = 1 := by omega
                simp [this, List.range'_one, pollInvocationAt, hp]
            | false =>
                simp only [hnr, Bool.false_eq_true, if_false]
                rw [ih]
                exact (filterMap_range_drop (pollInvocationAt polls) i _
                  (Nat.succ_le_of_lt (Nat.lt_of_lt_of_le (Nat.lt_succ_self i)
                    (pollLoopF_next_ge polls reqTime f (i + 1) _)))
                  (by simp [pollInvocationAt, hp])).symm
        | success b =>
            cases hb : b.isNull with
            | true =>
                simp only [hb, if_true]
                rw [ih]
                exact (filterMap_range_drop (pollInvocationAt polls) i _
                  (Nat.succ_le_of_lt (Nat.lt_of_lt_of_le (Nat.lt_succ_self i)
                    (pollLoopF_next_ge polls reqTime f (i + 1) _)))
                  (by simp [pollInvocationAt, hp, hb])).symm
            | false =>
                simp only [hb, Bool.false_eq_true, if_false]
                split
                · have : i + 1 - i = 1 := by omega
                  simp [this, List.range'_one, pollInvocationAt, hp, hb]
                · split
                  · rw [ih]
                    exact (filterMap_range_peel (pollInvocationAt polls) i _ _
                      (Nat.succ_le_of_lt (Nat.lt_of_lt_of_le (Nat.lt_succ_self i)
                        (pollLoopF_next_ge polls reqTime f (i + 1) _)))
                      (by simp [pollInvocationAt, hp, hb])).symm
                  · rw [ih]
                    exact (filterMap_range_peel (pollInvocationAt polls) i _ _
                      (Nat.succ_le_of_lt (Nat.lt_of_lt_of_le (Nat.lt_succ_self i)
                        (pollLoopF_next_ge polls reqTime f (i + 1) _)))
                      (by simp [pollInvocationAt, hp, hb])).symm
      · simp

/-- While the guard holds, each loop iteration issues a GET: the next index
strictly advances. -/
theorem pollLoopF_poll_issued (polls : Nat → PollResult) (reqTime : Nat → Nat)
    (fuel i elapsed : Nat) (h : elapsed < TIMEOUT_MS) :
    i + 1 ≤ (pollLoopF polls reqTime (fuel + 1) i elapsed).2.2 := by
  simp only [pollLoopF, if_pos h]
  split
  · split
    · exact Nat.le.refl
    · exact pollLoopF_next_ge polls reqTime fuel (i + 1) _
  · split
    · exact pollLoopF_next_ge polls reqTime fuel (i + 1) _
    · split
      · exact Nat.le.refl
      · split
        · exact pollLoopF_next_ge polls reqTime fuel (i + 1) _
        · exact pollLoopF_next_ge polls reqTime fuel (i + 1) _

/-- Shape of a run that enters the polling path: a non-null, not-ready
initial body with a derivable polling target polls from index 0 with a fresh
clock, emits `Initializing...` and the initial status before the loop's own
updates, and polls the derived target. -/
theorem generate_polling_run (imageUrl apiKey apiSecret : String)
    (initial : Json) (polls : Nat → PollResult) (reqTime : Nat → Nat) (target : Json)
    (hnn : initial.isNull = false) (hnr : isVideoReady initial = false)
    (hd : deriveStatusTarget initial = some target) :
    generateMemoryVideo imageUrl apiKey apiSecret initial polls reqTime
      = ⟨(pollLoopF polls reqTime PMAX 0 0).1,
          .str "Initializing..." :: initialStatusMsg initial
            :: (pollLoopF polls reqTime PMAX 0 0).2.1,
          (pollLoopF polls reqTime PMAX 0 0).2.2, some target,
          buildPayload imageUrl, buildHeaders apiKey apiSecret,
          INITIAL_POST_TIMEOUT_MS⟩ := by
  simp [generateMemoryVideo, hnn, hnr, hd]

/-! ### Claims -/

/-- C1 (code bug): the spec says a poll response with status `failed` (or
`nsfw`) fails the call terminally with the server's `error` detail and stops
polling. In the source the `throw new Error("Video generation failed: ...")`
sits inside the polling `try` block: the surrounding `catch` receives it,
finds no `response` field on it, and therefore treats it as a transient error
and keeps polling. Evaluated at the failing input — initial body
`{request_id: "rid"}`, first poll `{status: "failed", error: "boom"}`, second
poll `{status: "completed"}` — the call issues a second poll after the
`failed` response and resolves successfully, contradicting the claim. -/
theorem C1_failed_status_swallowed :
    (generateMemoryVideo "https://img" "key" "secret"
        (Json.obj [("request_id", Json.str "rid")])
        (fun n => if n == 0 then
            .success (Json.obj [("status", Json.str "failed"), ("error", Json.str "boom")])
          else .success (Json.obj [("status", Json.str "completed")]))
        (fun _ => 0)).outcome
      = .ok (Json.obj [("status", Json.str "completed")])
    ∧ (generateMemoryVideo "https://img" "key" "secret"
        (Json.obj [("request_id", Json.str "rid")])
        (fun n => if n == 0 then
            .success (Json.obj [("status", Json.str "failed"), ("error", Json.str "boom")])
          else .success (Json.obj [("status", Json.str "completed")]))
        (fun _ => 0)).pollCount = 2 :=
  ⟨rfl, rfl⟩

/-- C3: a request error during a poll iteration with an HTTP status in
[400, 500) other than 429 ends the loop at once (the error is re-raised, no
further poll is issued: the next index is `i + 1`); every other request error
(no status, 5xx, 429) lets the loop continue into the next iteration with the
same accumulated clock — the elapsed-time budget is not reset — so a
transient error followed by a later `completed` response still resolves. -/
theorem C3_poll_error_classification (polls : Nat → PollResult) (reqTime : Nat → Nat)
    (fuel i elapsed : Nat) (st : Option Nat)
    (hg : elapsed < TIMEOUT_MS) (hp : polls i = .httpError st) :
    (isNonRetryablePollError st = true →
        pollLoopF polls reqTime (fuel + 1) i elapsed = (.pollFailure st, [], i + 1))
    ∧ (isNonRetryablePollError st = false →
        pollLoopF polls reqTime (fuel + 1) i elapsed
          = pollLoopF polls reqTime fuel (i + 1) (elapsed + POLLING_INTERVAL + reqTime i)) := by
  constructor <;> intro h <;> simp [pollLoopF, if_pos hg, hp, h]

/-- Witness for C3: a 404 poll error stops the loop immediately with one GET
issued, while a 429 poll error is tolerated and a subsequent `completed`
response resolves the run. -/
theorem C3_witness :
    pollLoopF (fun _ => .httpError (some 404)) (fun _ => 0) (400 + 1) 0 0
      = (.pollFailure (some 404), [], 1)
    ∧ pollLoopF
        (fun n => if n == 0 then .httpError (some 429)
          else .success (Json.obj [("status", Json.str "completed")]))
        (fun _ => 0) (400 + 1) 0 0
      = (.ok (Json.obj [("status", Json.str "completed")]), [.str "completed"], 2) := by
  constructor
  · exact (C3_poll_error_classification (fun _ => .httpError (some 404)) (fun _ => 0)
      400 0 0 (some 404) (by decide) rfl).1 (by decide)
  · rw [(C3_poll_error_classification
      (fun n => if n == 0 then .httpError (some 429)
        else .success (Json.obj [("status", Json.str "completed")]))
      (fun _ => 0) 400 0 0 (some 429) (by decide) rfl).2 (by decide)]
    rfl

/-- C6: an initial response that is not ready and has none of the fields
`request_id`, `id`, `status_url` is untrackable: the call returns the initial
body as the final result, raising no error and issuing no polling GET. (A
`null` body is excluded: the spec fixes response bodies to JSON objects, and
on `null` the readiness check itself raises a TypeError.) -/
theorem C6_untrackable_returns_initial (imageUrl apiKey apiSecret : String)
    (initial : Json) (polls : Nat → PollResult) (reqTime : Nat → Nat)
    (hnn : initial.isNull = false)
    (hnr : isVideoReady initial = false)
    (hrid : initial.getField "request_id" = none)
    (hid : initial.getField "id" = none)
    (hsu : initial.getField "status_url" = none) :
    generateMemoryVideo imageUrl apiKey apiSecret initial polls reqTime
      = ⟨.ok initial, [.str "Initializing..."], 0, none,
          buildPayload imageUrl, buildHeaders apiKey apiSecret,
          INITIAL_POST_TIMEOUT_MS⟩ := by
  have hd : deriveStatusTarget initial = none := by
    simp [deriveStatusTarget, hrid, hid, hsu, jsOr, optTruthy]
  simp [generateMemoryVideo, hnn, hnr, hd]

/-- Witness for C6: the empty-object initial response. -/
theorem C6_witness :
    generateMemoryVideo "https://img" "key" "secret" (Json.obj [])
        (fun _ => .httpError none) (fun _ => 0)
      = ⟨.ok (Json.obj []), [.str "Initializing..."], 0, none,
          buildPayload "https://img", buildHeaders "key" "secret",
          INITIAL_POST_TIMEOUT_MS⟩ :=
  C6_untrackable_returns_initial "https://img" "key" "secret" (Json.obj [])
    (fun _ => .httpError none) (fun _ => 0) rfl rfl rfl rfl rfl

/-- C7: every call issues its single initial POST with exactly the
fixed-shape payload — the fixed prompt string, the model identifier, the
numeric seed, a one-element motions list whose entry has `id` and `strength`
fields, the caller's image URL duplicated at the root `image_url` field and
inside the single `input_images` entry tagged `type: image_url`, and the two
boolean flags (`enhance_prompt`, `check_nsfw`) both fixed `true` — carrying
the two credential headers and the 30-second timeout. -/
theorem C7_initial_post_shape (imageUrl apiKey apiSecret : String)
    (initial : Json) (polls : Nat → PollResult) (reqTime : Nat → Nat) :
    (generateMemoryVideo imageUrl apiKey apiSecret initial polls reqTime).payload
        = buildPayload imageUrl
    ∧ (generateMemoryVideo imageUrl apiKey apiSecret initial polls reqTime).reqHeaders
        = buildHeaders apiKey apiSecret
    ∧ (generateMemoryVideo imageUrl apiKey apiSecret initial polls reqTime).postTimeoutMs
        = 30000
    ∧ (buildPayload imageUrl).getField "prompt"
        = some (.str "recreate the uploaded image into a real-life motion like video")
    ∧ (buildPayload imageUrl).getField "image2video_model" = some (.str "dop-lite")
    ∧ (buildPayload imageUrl).getField "seed" = some (.num 36644)
    ∧ (buildPayload imageUrl).getField "motions"
        = some (.arr [.obj [("id", .str "31177282-bde3-4870-b283-1135ca0a201a"),
            ("strength", .num 1)]])
    ∧ (buildPayload imageUrl).getField "image_url" = some (.str imageUrl)
    ∧ (buildPayload imageUrl).getField "input_images"
        = some (.arr [.obj [("type", .str "image_url"), ("image_url", .str imageUrl)]])
    ∧ (buildPayload imageUrl).getField "enhance_prompt" = some (.bool true)
    ∧ (buildPayload imageUrl).getField "check_nsfw" = some (.bool true)
    ∧ buildHeaders apiKey apiSecret
        = [("Content-Type", "application/json"), ("hf-api-key", apiKey),
            ("hf-secret", apiSecret)] := by
  refine ⟨?_, ?_, ?_, rfl, rfl, rfl, rfl, rfl, rfl, rfl, rfl, rfl⟩ <;>
    · simp only [generateMemoryVideo]
      split
      · rfl
      · split
        · rfl
        · split <;> rfl

/-- C9: a poll response reporting status `completed` or `success` resolves
the loop at once and the call returns that body — the readiness check is not
a precondition: the caller can receive a success result whose body has no
extractable video URL. -/
theorem C9_terminal_status_resolves (polls : Nat → PollResult) (reqTime : Nat → Nat)
    (fuel i elapsed : Nat) (body : Json)
    (hg : elapsed < TIMEOUT_MS) (hp : polls i = .success body)
    (hs : body.getField "status" = some (.str "completed")
        ∨ body.getField "status" = some (.str "success")) :
    pollLoopF polls reqTime (fuel + 1) i elapsed
      = (.ok body, [extractStatus body], i + 1) := by
  have hnn : body.isNull = false := by
    rcases hs with h | h <;> cases body <;> simp_all [Json.getField, Json.isNull]
  rcases hs with h | h <;>
    simp [pollLoopF, if_pos hg, hp, hnn, extractStatus, h, Json.truthy, Json.isStr]

/-- Witness for C9: a `completed` body with no video-URL field of any shape
still resolves the run successfully. -/
theorem C9_witness :
    pollLoopF (fun _ => .success (Json.obj [("status", Json.str "completed")]))
        (fun _ => 0) (400 + 1) 0 0
      = (.ok (Json.obj [("status", Json.str "completed")]),
          [extractStatus (Json.obj [("status", Json.str "completed")])], 1)
    ∧ isVideoReady (Json.obj [("status", Json.str "completed")]) = false :=
  ⟨C9_terminal_status_resolves (fun _ => .success (Json.obj [("status", Json.str "completed")]))
      (fun _ => 0) 400 0 0 (Json.obj [("status", Json.str "completed")])
      (by decide) rfl (Or.inl rfl),
    by decide⟩

/-- C4: when every poll result is non-terminal (no terminal status, no
readiness, no non-retryable error), the call still terminates: whatever the
per-request durations, it fails with the timeout error, whose message names
the 2000-second ceiling; and with instantaneous requests the polls are spaced
exactly `POLLING_INTERVAL` apart, so exactly
`TIMEOUT_MS / POLLING_INTERVAL = 400` GETs are issued before the ceiling. -/
theorem C4_nonterminal_polls_time_out (imageUrl apiKey apiSecret : String)
    (initial : Json) (polls : Nat → PollResult) (reqTime : Nat → Nat) (target : Json)
    (hnn : initial.isNull = false) (hnr : isVideoReady initial = false)
    (hd : deriveStatusTarget initial = some target)
    (hnt : ∀ j, nonTerminalPoll (polls j) = true) :
    (generateMemoryVideo imageUrl apiKey apiSecret initial polls reqTime).outcome
        = .timeoutErr TIMEOUT_MSG
    ∧ TIMEOUT_MSG = "Timed out waiting for video generation (2000s limit reached)."
    ∧ (generateMemoryVideo imageUrl apiKey apiSecret initial polls (fun _ => 0)).pollCount
        = TIMEOUT_MS / POLLING_INTERVAL := by
  refine ⟨?_, rfl, ?_⟩
  · rw [generate_polling_run imageUrl apiKey apiSecret initial polls reqTime target hnn hnr hd]
    exact pollLoopF_timeout polls reqTime hnt PMAX 0 0
  · rw [generate_polling_run imageUrl apiKey apiSecret initial polls (fun _ => 0) target hnn hnr hd]
    show (pollLoopF polls (fun _ => 0) PMAX 0 0).2.2 = TIMEOUT_MS / POLLING_INTERVAL
    rw [pollLoopF_count polls hnt PMAX 0 0]
    simp [PMAX, TIMEOUT_MS, POLLING_INTERVAL]

/-- Witness for C4: an initial body `{request_id: "rid"}` and polls that
always report status `queued` reach the timeout. -/
theorem C4_witness :
    (generateMemoryVideo "https://img" "key" "secret"
        (Json.obj [("request_id", Json.str "rid")])
        (fun _ => .success (Json.obj [("status", Json.str "queued")]))
        (fun _ => 7)).outcome = .timeoutErr TIMEOUT_MSG
    ∧ (generateMemoryVideo "https://img" "key" "secret"
        (Json.obj [("request_id", Json.str "rid")])
        (fun _ => .success (Json.obj [("status", Json.str "queued")]))
        (fun _ => 0)).pollCount = TIMEOUT_MS / POLLING_INTERVAL := by
  have hq : nonTerminalPoll (.success (Json.obj [("status", Json.str "queued")])) = true := by
    decide
  have h := C4_nonterminal_polls_time_out "https://img" "key" "secret"
    (Json.obj [("request_id", Json.str "rid")])
    (fun _ => .success (Json.obj [("status", Json.str "queued")]))
    (fun _ => 7)
    (.str "https://platform.higgsfield.ai/requests/rid/status")
    rfl rfl rfl (fun _ => hq)
  exact ⟨h.1, h.2.2⟩

/-- C2 counterexample: the claim states that `generate()` returns immediately
with zero polling GETs only if the initial body holds a resolvable video URL
under one of the four known shapes. The body `{output: []}` has none of those
shapes — `output` holds an empty, URL-free list — yet JavaScript truthiness
of the array makes the source's readiness check succeed, so the call returns
the body at once with zero polls. -/
theorem C2_counterexample :
    (generateMemoryVideo "https://img" "key" "secret"
        (Json.obj [("output", Json.arr [])])
        (fun _ => .httpError none) (fun _ => 0)).pollCount = 0
    ∧ (generateMemoryVideo "https://img" "key" "secret"
        (Json.obj [("output", Json.arr [])])
        (fun _ => .httpError none) (fun _ => 0)).outcome
        = .ok (Json.obj [("output", Json.arr [])])
    ∧ specHasResolvableVideoUrl (Json.obj [("output", Json.arr [])]) = false :=
  ⟨rfl, rfl, rfl⟩

/-- C2 (amended): `generate()` issues zero polling GETs if and only if the
initial body passes the source's truthiness readiness check (a truthy
`video.url`, `output` — any truthy value, URL or not, including an empty
array — or `url` field), or no polling target is derivable (no truthy
`status_url` and no truthy `request_id`/`id`: the untrackable case, returned
as-is; a `null` body, which fails with a TypeError before polling, also
derives no target). Any other initial body enters the polling path and issues
at least one GET. -/
theorem C2_zero_polls_iff (imageUrl apiKey apiSecret : String)
    (initial : Json) (polls : Nat → PollResult) (reqTime : Nat → Nat) :
    (generateMemoryVideo imageUrl apiKey apiSecret initial polls reqTime).pollCount = 0
      ↔ (isVideoReady initial = true ∨ deriveStatusTarget initial = none) := by
  by_cases hn : initial.isNull = true
  · have h0 : initial = Json.null := by
      cases initial <;> simp_all [Json.isNull]
    subst h0
    exact ⟨fun _ => Or.inr rfl, fun _ => rfl⟩
  · have hn' : initial.isNull = false := by
      cases h : initial.isNull with
      | true => exact absurd h hn
      | false => rfl
    by_cases hr : isVideoReady initial = true
    · constructor
      · exact fun _ => Or.inl hr
      · intro _
        simp [generateMemoryVideo, hn', hr]
    · have hr' : isVideoReady initial = false := by
        cases h : isVideoReady initial with
        | true => exact absurd h hr
        | false => rfl
      by_cases hd : deriveStatusTarget initial = none
      · constructor
        · exact fun _ => Or.inr hd
        · intro _
          simp [generateMemoryVideo, hn', hr', hd]
      · obtain ⟨t, ht⟩ : ∃ t, deriveStatusTarget initial = some t :=
          Option.ne_none_iff_exists'.mp hd
        rw [generate_polling_run imageUrl apiKey apiSecret initial polls reqTime t hn' hr' ht]
        have hone : 0 + 1 ≤ (pollLoopF polls reqTime PMAX 0 0).2.2 := by
          have : PMAX = TIMEOUT_MS / POLLING_INTERVAL + 1 := rfl
          rw [this]
          exact pollLoopF_poll_issued polls reqTime (TIMEOUT_MS / POLLING_INTERVAL) 0 0
            (by decide)
        constructor
        · intro h0
          have h0x : (pollLoopF polls reqTime PMAX 0 0).2.2 = 0 := h0
          exact absurd h0x (by omega)
        · rintro (h | h)
          · exact absurd h (by simp [hr'])
          · exact absurd h (by simp [ht])

/-- C5 counterexample: the claim states that when the initial response
supplies `status_url`, that value is used verbatim as the polling target. The
body `{request_id: "abc", status_url: ""}` supplies `status_url`, but the
empty string is falsy, so the source discards it and polls the synthesized
template URL instead. -/
theorem C5_counterexample :
    (generateMemoryVideo "https://img" "key" "secret"
        (Json.obj [("request_id", Json.str "abc"), ("status_url", Json.str "")])
        (fun _ => .success (Json.obj [("status", Json.str "completed")]))
        (fun _ => 0)).pollTarget
      = some (.str "https://platform.higgsfield.ai/requests/abc/status")
    ∧ (Json.obj [("request_id", Json.str "abc"), ("status_url", Json.str "")]).getField
        "status_url" = some (.str "")
    ∧ (Json.str "https://platform.higgsfield.ai/requests/abc/status") ≠ .str "" :=
  ⟨rfl, rfl, by intro h; injection h with h2; exact absurd h2 (by decide)⟩

/-- C5 (amended): for a non-null, not-ready initial response, when the
`status_url` field is absent and the extracted request id
(`request_id || id`) is truthy, the polling target is the fixed template with
the id interpolated (`https://platform.higgsfield.ai/requests/<id>/status`);
when the response supplies a truthy `status_url`, that value is used
verbatim. (A falsy `status_url` — e.g. the empty string — is treated exactly
as an absent one.) -/
theorem C5_poll_target_derivation (imageUrl apiKey apiSecret : String)
    (initial : Json) (polls : Nat → PollResult) (reqTime : Nat → Nat)
    (hnn : initial.isNull = false) (hnr : isVideoReady initial = false) :
    (∀ rid, initial.getField "status_url" = none →
        jsOr (initial.getField "request_id") (initial.getField "id") = some rid →
        rid.truthy = true →
        (generateMemoryVideo imageUrl apiKey apiSecret initial polls reqTime).pollTarget
          = some (.str ("https://platform.higgsfield.ai/requests/"
              ++ jsToString rid ++ "/status")))
    ∧ (∀ u, initial.getField "status_url" = some u → u.truthy = true →
        (generateMemoryVideo imageUrl apiKey apiSecret initial polls reqTime).pollTarget
          = some u) := by
  constructor
  · intro rid hsu hrid htr
    have hd : deriveStatusTarget initial
        = some (.str ("https://platform.higgsfield.ai/requests/"
            ++ jsToString rid ++ "/status")) := by
      simp [deriveStatusTarget, hsu, hrid, optTruthy, htr]
    rw [generate_polling_run imageUrl apiKey apiSecret initial polls reqTime _ hnn hnr hd]
  · intro u hsu htr
    have hd : deriveStatusTarget initial = some u := by
      simp [deriveStatusTarget, hsu, optTruthy, htr]
    rw [generate_polling_run imageUrl apiKey apiSecret initial polls reqTime u hnn hnr hd]

/-- Witness for C5: an id-only initial response yields the template URL; a
truthy `status_url` is used verbatim. -/
theorem C5_witness :
    (generateMemoryVideo "https://img" "key" "secret"
        (Json.obj [("request_id", Json.str "abc")])
        (fun _ => .success (Json.obj [("status", Json.str "completed")]))
        (fun _ => 0)).pollTarget
      = some (.str ("https://platform.higgsfield.ai/requests/"
          ++ jsToString (Json.str "abc") ++ "/status"))
    ∧ (generateMemoryVideo "https://img" "key" "secret"
        (Json.obj [("status_url", Json.str "https://poll.me/x")])
        (fun _ => .success (Json.obj [("status", Json.str "completed")]))
        (fun _ => 0)).pollTarget
      = some (.str "https://poll.me/x") := by
  constructor
  · exact (C5_poll_target_derivation "https://img" "key" "secret"
      (Json.obj [("request_id", Json.str "abc")])
      (fun _ => .success (Json.obj [("status", Json.str "completed")]))
      (fun _ => 0) rfl rfl).1 (Json.str "abc") rfl rfl rfl
  · exact (C5_poll_target_derivation "https://img" "key" "secret"
      (Json.obj [("status_url", Json.str "https://poll.me/x")])
      (fun _ => .success (Json.obj [("status", Json.str "completed")]))
      (fun _ => 0) rfl rfl).2 (Json.str "https://poll.me/x") rfl rfl

/-- C8: on a run that enters the polling path with poll bodies that are
non-null JSON values (the spec fixes response bodies to JSON objects), the
full callback trace is `Initializing...`, then the initial status, then
exactly one invocation per successful poll cycle among the polls issued —
each carrying that cycle's extracted status (`data.status || "in_progress"`),
in poll order — and nothing after the poll that resolves or ends the run:
`pollInvocations` ranges only over the `pollCount` polls issued. -/
theorem C8_one_update_per_successful_poll (imageUrl apiKey apiSecret : String)
    (initial : Json) (polls : Nat → PollResult) (reqTime : Nat → Nat) (target : Json)
    (hnn : initial.isNull = false) (hnr : isVideoReady initial = false)
    (hd : deriveStatusTarget initial = some target)
    (hobj : ∀ j b, polls j = .success b → b.isNull = false) :
    (generateMemoryVideo imageUrl apiKey apiSecret initial polls reqTime).updates
      = .str "Initializing..." :: initialStatusMsg initial
          :: pollInvocations polls
              (generateMemoryVideo imageUrl apiKey apiSecret initial polls reqTime).pollCount
    ∧ ∀ j b, polls j = .success b → pollInvocationAt polls j = some (extractStatus b) := by
  constructor
  · rw [generate_polling_run imageUrl apiKey apiSecret initial polls reqTime target hnn hnr hd]
    show _ :: _ :: (pollLoopF polls reqTime PMAX 0 0).2.1
        = _ :: _ :: pollInvocations polls (pollLoopF polls reqTime PMAX 0 0).2.2
    rw [pollLoopF_updates polls reqTime PMAX 0 0, pollInvocations,
      List.range_eq_range']
    simp
  · intro j b hpj
    simp [pollInvocationAt, hpj, hobj j b hpj]

/-- Witness for C8. -/
theorem C8_witness :
    (generateMemoryVideo "https://img" "key" "secret"
        (Json.obj [("request_id", Json.str "rid")])
        (fun _ => .success (Json.obj [("status", Json.str "queued")]))
        (fun _ => 0)).updates
      = .str "Initializing..." :: initialStatusMsg (Json.obj [("request_id", Json.str "rid")])
          :: pollInvocations (fun _ => .success (Json.obj [("status", Json.str "queued")]))
              (generateMemoryVideo "https://img" "key" "secret"
                (Json.obj [("request_id", Json.str "rid")])
                (fun _ => .success (Json.obj [("status", Json.str "queued")]))
                (fun _ => 0)).pollCount :=
  (C8_one_update_per_successful_poll "https://img" "key" "secret"
    (Json.obj [("request_id", Json.str "rid")])
    (fun _ => .success (Json.obj [("status", Json.str "queued")]))
    (fun _ => 0)
    (.str "https://platform.higgsfield.ai/requests/rid/status")
    rfl rfl rfl
    (fun j b h => by injection h with h2; rw [← h2]; rfl)).1

/-- C10 counterexample: the claim states that on a not-ready but trackable
initial response the callback is invoked with the initial response's status
(or `Queued` when absent). The body `{request_id: "r", status: ""}` has a
status field, the empty string — yet the callback receives `Queued`, because
the source tests truthiness, not presence. -/
theorem C10_counterexample :
    (generateMemoryVideo "https://img" "key" "secret"
        (Json.obj [("request_id", Json.str "r"), ("status", Json.str "")])
        (fun _ => .success (Json.obj [("status", Json.str "completed")]))
        (fun _ => 0)).updates
      = [.str "Initializing...", .str "Queued", .str "completed"]
    ∧ (Json.obj [("request_id", Json.str "r"), ("status", Json.str "")]).getField "status"
        = some (.str "")
    ∧ (Json.str "Queued") ≠ .str "" :=
  ⟨rfl, rfl, by intro h; injection h with h2; exact absurd h2 (by decide)⟩

/-- C10 (amended): on every call the first callback invocation is
`Initializing...` (emitted before the initial POST, so the callback runs at
least once even on synchronously-completing, untrackable, or failing calls);
and on a not-ready but trackable initial response the callback is next
invoked — before the first poll wait — with the initial response's status
when that status is truthy, and with `Queued` when the status field is absent
or falsy (e.g. the empty string). -/
theorem C10_initial_updates (imageUrl apiKey apiSecret : String)
    (initial : Json) (polls : Nat → PollResult) (reqTime : Nat → Nat) :
    (generateMemoryVideo imageUrl apiKey apiSecret initial polls reqTime).updates.head?
        = some (.str "Initializing...")
    ∧ (∀ target, initial.isNull = false → isVideoReady initial = false →
        deriveStatusTarget initial = some target →
        (generateMemoryVideo imageUrl apiKey apiSecret initial polls reqTime).updates
          = .str "Initializing..." :: initialStatusMsg initial
              :: (pollLoopF polls reqTime PMAX 0 0).2.1) := by
  constructor
  · simp only [generateMemoryVideo]
    split
    · rfl
    · split
      · rfl
      · split <;> rfl
  · intro target hnn hnr hd
    rw [generate_polling_run imageUrl apiKey apiSecret initial polls reqTime target hnn hnr hd]

/-- Witness for C10: a trackable initial response with a truthy status. -/
theorem C10_witness :
    (generateMemoryVideo "https://img" "key" "secret"
        (Json.obj [("request_id", Json.str "r"), ("status", Json.str "queued")])
        (fun _ => .success (Json.obj [("status", Json.str "completed")]))
        (fun _ => 0)).updates
      = .str "Initializing..."
          :: initialStatusMsg (Json.obj [("request_id", Json.str "r"),
              ("status", Json.str "queued")])
          :: (pollLoopF (fun _ => .success (Json.obj [("status", Json.str "completed")]))
              (fun _ => 0) PMAX 0 0).2.1 :=
  (C10_initial_updates "https://img" "key" "secret"
    (Json.obj [("request_id", Json.str "r"), ("status", Json.str "queued")])
    (fun _ => .success (Json.obj [("status", Json.str "completed")]))
    (fun _ => 0)).2
    (.str "https://platform.higgsfield.ai/requests/r/status") rfl rfl rfl
